import Mathlib

/-!
Verification of the VMTB amala backend orchestration pipeline.

Shallow embedding of the Python sources:
- `src/app/api/routes.py` (`separate_files`, `process_case`)
- `src/app/services/uploader.py` (`S3Uploader.get_upload_urls`, `upload_all_images`)
- `src/app/services/ai_pipeline.py` (`AIPipeline.poll_job_status`, `call_extract_api`)
- `src/app/services/supabase_service.py` (`SupabaseService`)

Python dictionaries are modelled as association lists with Python's
insert-or-overwrite semantics; HTTP collaborators are modelled as oracles in
an `Env` record; exceptions are modelled as explicit error values.
-/

/-- Python dict assignment `m[k] = v`: overwrite in place if the key exists
(keeping its position), otherwise append at the end. -/
def pyDictInsert {α : Type} (m : List (String × α)) (k : String) (v : α) :
    List (String × α) :=
  if m.any (fun kv => kv.1 = k) then
    m.map (fun kv => if kv.1 = k then (k, v) else kv)
  else
    m ++ [(k, v)]

/-- Python `m.get(k)` / `k in m`: the stored value, if any. -/
def pyDictGet {α : Type} (m : List (String × α)) (k : String) : Option α :=
  (m.find? (fun kv => kv.1 = k)).map (fun kv => kv.2)

/-- Python `m.get(k, "")` where the stored values are themselves
string-or-None (`Option String`): the stored value if the key is present
(even if it is None), else the default `""`. -/
def pyDictGetD (m : List (String × Option String)) (k : String) : Option String :=
  match pyDictGet m k with
  | none => some ""
  | some v => v

/-- Python truthiness of a string-or-None value: `None` and `""` are falsy. -/
def pyTruthy : Option String → Bool
  | none => false
  | some s => s != ""

/-- Code-point lexicographic `≤` on character lists (how CPython compares
strings). -/
def charListLe : List Char → List Char → Bool
  | [], _ => true
  | _ :: _, [] => false
  | a :: as, b :: bs =>
    if a.toNat < b.toNat then true
    else if b.toNat < a.toNat then false
    else charListLe as bs

/-- Code-point lexicographic `≤` on strings. -/
def strLe (s t : String) : Bool := charListLe s.toList t.toList

/-- ASCII lower-casing of a string, character by character
(CPython `str.lower` restricted to the ASCII names at play). -/
def strToLower (s : String) : String := String.mk (s.toList.map Char.toLower)

/-- `str.endswith`: the characters of `t` are the trailing characters of `s`. -/
def strEndsWith (s t : String) : Bool :=
  decide (t.toList = s.toList.drop (s.toList.length - t.toList.length))

/-- Insertion step of a stable ascending sort on strings. -/
def insertStr (s : String) : List String → List String
  | [] => [s]
  | t :: ts => if strLe s t then s :: t :: ts else t :: insertStr s ts

/-- Python `sorted(...)` on strings (code-point lexicographic, as in CPython). -/
def sortStrings (l : List String) : List String :=
  l.foldr insertStr []

/-- Python `"\n\n".join(parts)`. -/
def joinBlank : List String → String
  | [] => ""
  | [a] => a
  | a :: rest => a ++ "\x0a\x0a" ++ joinBlank rest

/-- Python `", ".join(parts)`. -/
def joinComma : List String → String
  | [] => ""
  | [a] => a
  | a :: rest => a ++ ", " ++ joinComma rest

/-- Keep the first occurrence of each string (a directory holds one file per
name, so names collected from it are unique). -/
def dedupStr (l : List String) : List String :=
  (l.foldl (fun acc s => if acc.contains s then acc else acc ++ [s]) [])

/-! ## Job Poller (`AIPipeline.poll_job_status`, ai_pipeline.py lines 88-156) -/

/-- `AIPipeline.MAX_POLL_ATTEMPTS` (ai_pipeline.py line 24). -/
def MAX_POLL_ATTEMPTS : Nat := 120

/-- Parsed body of one job-status response: `data.get("status")`,
`data.get("result", {}).get("final_summary")`, `data.get("error")`. -/
structure StatusBody where
  status : String
  finalSummary : Option String
  error : Option String
deriving DecidableEq

/-- One server behaviour for one status request: either the transport layer
fails (`requests.exceptions.RequestException`, including non-2xx via
`raise_for_status`), or a JSON body is returned. -/
inductive ServerReply where
  | transport (msg : String)
  | reply (body : StatusBody)
deriving DecidableEq

/-- Outcome of `poll_job_status`: a returned summary, a raised `Exception`
(with its message), or a raised `TimeoutError` — a distinct Python
exception class, so a distinct constructor here. -/
inductive PollOutcome where
  | completed (finalSummary : String)
  | errorExc (msg : String)
  | timeoutErr (msg : String)
deriving DecidableEq

/-- A reply whose status is `processing` (the non-terminal case). -/
def procReply : ServerReply :=
  .reply { status := "processing", finalSummary := none, error := none }

/-- The loop body of `poll_job_status` (ai_pipeline.py lines 104-156).
`attempt` is the Python loop counter (also the index of the next status
request, since the counter advances exactly once per issued request that
does not terminate the loop); `fuel = MAX_POLL_ATTEMPTS - attempt` bounds
the remaining iterations of `while attempt < MAX_POLL_ATTEMPTS`.
Returns the outcome together with the number of status requests issued. -/
def poll_go (replies : Nat → ServerReply) : Nat → Nat → PollOutcome × Nat
  | _, 0 =>
    (.timeoutErr ("Job polling timed out after " ++ toString MAX_POLL_ATTEMPTS ++ " attempts"), 0)
  | attempt, fuel + 1 =>
    match replies attempt with
    | .transport m =>
      -- `except requests.exceptions.RequestException` re-raises immediately
      (.errorExc ("Failed to poll job status: " ++ m), 1)
    | .reply b =>
      if b.status = "completed" then
        if pyTruthy b.finalSummary then (.completed (b.finalSummary.getD ""), 1)
        else (.errorExc "No final_summary in completed result", 1)
      else if b.status = "failed" then
        (.errorExc ("Job failed: " ++ b.error.getD "Unknown error"), 1)
      else
        -- status is `processing` (or anything else): sleep and retry
        let r := poll_go replies (attempt + 1) fuel
        (r.1, r.2 + 1)

/-- `AIPipeline.poll_job_status`, abstracted over the server's replies.
Returns the outcome and the number of status requests issued. -/
def poll_job_status (replies : Nat → ServerReply) : PollOutcome × Nat :=
  poll_go replies 0 MAX_POLL_ATTEMPTS

/-! ## Document Classifier (`separate_files`, routes.py lines 30-56) -/

/-- A saved upload: its original filename and its byte content (only text
files' contents are ever read back, so `String` suffices). -/
structure UploadedFile where
  filename : String
  content : String
deriving DecidableEq

/-- `pathlib.PurePath.suffix`: the extension of the final component,
`name[i:]` where `i` is the last index of `'.'`, provided `0 < i < len - 1`;
otherwise the empty string. -/
def lastDotIdx : List Char → Nat → Option Nat → Option Nat
  | [], _, acc => acc
  | c :: cs, i, acc => lastDotIdx cs (i + 1) (if c = '.' then some i else acc)

/-- See `lastDotIdx`. -/
def pathSuffix (name : String) : String :=
  match lastDotIdx name.toList 0 none with
  | none => ""
  | some i =>
    if 0 < i ∧ i < name.length - 1 then String.mk (name.toList.drop i) else ""

/-- `document_extensions` (routes.py line 40). -/
def document_extensions : List String :=
  [".pdf", ".png", ".jpg", ".jpeg", ".webp", ".bmp", ".gif", ".tiff", ".xps", ".epub"]

/-- `txt_extensions` (routes.py line 41). -/
def txt_extensions : List String := [".txt"]

/-- `separate_files` (routes.py lines 30-56): route `.txt` files to the text
list, allow-listed extensions to documents, and any other extension to
documents as well ("try to treat as document"). -/
def separate_files : List UploadedFile → List UploadedFile × List UploadedFile
  | [] => ([], [])
  | f :: rest =>
    let (docs, txts) := separate_files rest
    let ext := strToLower (pathSuffix f.filename)
    if ext ∈ txt_extensions then (docs, f :: txts)
    else if ext ∈ document_extensions then (f :: docs, txts)
    else (f :: docs, txts)

/-! ## Upload Coordinator (`S3Uploader`, uploader.py) -/

/-- One element of the upload-URL service's `uploads.data` array
(uploader.py lines 63-66): each field may be absent or null. -/
structure UploadItem where
  original_name : Option String
  upload_url : Option String
  s3_key : Option String
deriving DecidableEq

/-- The dict-building loop of `S3Uploader.get_upload_urls` (uploader.py
lines 63-76): an item contributes to both dicts only when its
`original_name` and `upload_url` are truthy; `s3_key` is stored as-is
(possibly None). Returns `(upload_urls, s3_keys)`. -/
def parseUploadItems (items : List UploadItem) :
    List (String × String) × List (String × Option String) :=
  items.foldl
    (fun acc it =>
      if pyTruthy it.original_name && pyTruthy it.upload_url then
        (pyDictInsert acc.1 (it.original_name.getD "") (it.upload_url.getD ""),
         pyDictInsert acc.2 (it.original_name.getD "") it.s3_key)
      else acc)
    ([], [])

/-- The loop of `S3Uploader.upload_all_images` (uploader.py lines 150-167):
every image is attempted; a missing upload URL or a failed PUT appends the
filename to `failed_uploads`, a successful PUT records
`filename -> s3_keys.get(filename, "")`. `putOk` is the oracle for
`upload_image_to_s3` (True on success, False on any transport error). -/
def upload_go (urls : List (String × String)) (keys : List (String × Option String))
    (putOk : String → Bool) :
    List String → List (String × Option String) → List String →
      List (String × Option String) × List String
  | [], m, failed => (m, failed)
  | name :: rest, m, failed =>
    match pyDictGet urls name with
    | none => upload_go urls keys putOk rest m (failed ++ [name])
    | some _ =>
      if putOk name then
        upload_go urls keys putOk rest (pyDictInsert m name (pyDictGetD keys name)) failed
      else
        upload_go urls keys putOk rest m (failed ++ [name])

/-- `S3Uploader.upload_all_images` (uploader.py lines 131-172): after
attempting every image, raise if `failed_uploads` is non-empty, else return
the filename-to-storage-key mapping. -/
def upload_all_images (names : List String) (urls : List (String × String))
    (keys : List (String × Option String)) (putOk : String → Bool) :
    Except String (List (String × Option String)) :=
  let r := upload_go urls keys putOk names [] []
  if r.2.isEmpty then .ok r.1
  else .error ("Failed to upload images: " ++ joinComma r.2)

/-! ## Extraction Submitter (`AIPipeline.call_extract_api`, ai_pipeline.py) -/

/-- The payload POSTed to the extract endpoint (ai_pipeline.py lines 49-52):
grouped storage keys (values may be Python None) and, only when truthy, the
additional notes text. -/
structure ExtractPayload where
  clinical_data : List (String × List (Option String))
  additional_data : Option String
deriving DecidableEq

/-- Payload assembly in `call_extract_api` (ai_pipeline.py lines 49-52):
`additional_data` is included only when truthy. -/
def extract_payload (cd : List (String × List (Option String)))
    (ad : Option String) : ExtractPayload :=
  { clinical_data := cd, additional_data := if pyTruthy ad then ad else none }

/-! ## Pipeline Orchestrator (`process_case`, routes.py lines 117-442) -/

/-- STEP 6 of `process_case` (routes.py lines 314-348): start from the
form-provided notes if truthy; if any text files were classified, join
their contents with blank lines and append them after the form notes
(blank-line separated), or use them alone. -/
def final_additional_data (form : Option String) (textContents : List String) :
    Option String :=
  let fad : Option String := if pyTruthy form then form else none
  if textContents.isEmpty then fad
  else
    let text_data := joinBlank textContents
    if pyTruthy fad then some (fad.getD "" ++ "\x0a\x0a" ++ text_data)
    else some text_data

/-- The dict of files on disk in the request's `raw/` directory after the
save loop: one entry per filename, last write wins
(`temp_storage.save_uploaded_file` overwrites). -/
def savedDict (saved : List UploadedFile) : List (String × String) :=
  saved.foldl (fun m f => pyDictInsert m f.filename f.content) []

/-- `temp_storage.get_raw_files` (temp_storage.py lines 77-90): the files of
the raw directory, sorted by name. -/
def rawFilesOf (saved : List UploadedFile) : List UploadedFile :=
  (sortStrings ((savedDict saved).map (fun kv => kv.1))).map
    (fun n => { filename := n, content := ((pyDictGet (savedDict saved) n).getD "") })

/-- The JSON-level response of `/process-case`: either
`{"status": "processing_started", "summary_markdown": None}` or
`{"status": "error", "message": ...}` (absent fields are `none`). -/
structure ApiResponse where
  status : String
  summary_markdown : Option String
  message : Option String
deriving DecidableEq

/-- The error response built by the `except Exception` handler
(routes.py lines 423-428). -/
def errResp (m : String) : ApiResponse :=
  { status := "error", summary_markdown := none, message := some m }

/-- The success acknowledgment (routes.py lines 408-411). -/
def ackResp : ApiResponse :=
  { status := "processing_started", summary_markdown := none, message := none }

/-- External collaborators of one `process_case` run (all HTTP services and
the converter), as oracles. -/
structure Env where
  /-- `universal_to_jpeg`: the JPEG filenames each document drops into the
  shared images directory. -/
  convert : String → List String
  /-- The get-upload-urls POST: transport error or the `uploads.data` items. -/
  uploadUrlsReply : Except String (List UploadItem)
  /-- Whether the PUT of a given image filename succeeds. -/
  putOk : String → Bool
  /-- The extract POST: transport error or the `job_id` field of the body. -/
  extractReply : Except String (Option String)
  /-- The job-status GETs, by request index. -/
  statusReplies : Nat → ServerReply
  /-- Return value of `SupabaseService.update_case_summary`. -/
  summaryWriteOk : Bool

/-- What one `process_case` run produced: the HTTP response, the number of
HTTP calls made (upload-URL POST, image PUTs, extract POST, status GETs),
the payload submitted to the extract endpoint (if that call was reached),
and the Supabase writes performed. -/
structure RunResult where
  response : ApiResponse
  httpCalls : Nat
  submittedPayload : Option ExtractPayload
  summaryWrites : List (String × String)
  failWrites : List String
deriving DecidableEq

/-- `i1.jpeg`, ..., `in.jpeg`: the names after the rename loop
(routes.py lines 226-235). -/
def renamedNames (n : Nat) : List String :=
  (List.range n).map (fun i => "i" ++ toString (i + 1) ++ ".jpeg")

/-- STEP 2 of `process_case` (routes.py lines 206-223): convert every
document into the shared images directory, then glob `*.jpeg` sorted. The
directory holds one file per name. -/
def convertedImages (env : Env) (docs : List UploadedFile) : List String :=
  sortStrings
    ((dedupStr (docs.flatMap (fun d => env.convert d.filename))).filter
      (fun n => strEndsWith n ".jpeg"))

/-- Message of the `AttributeError` raised at routes.py line 374:
`SupabaseService.update_case_failed` is called there but
`supabase_service.py` defines no such method (only `update_case_summary`),
so Python raises before any failure write can happen. (Newer CPython
versions append a "Did you mean" hint; the base text is modelled.) -/
def updateCaseFailedAttrMsg : String :=
  "type object " ++ "\x27SupabaseService\x27" ++
    " has no attribute " ++ "\x27update_case_failed\x27"

/-- `process_case` (routes.py lines 117-442), with every exception path
made explicit. Control flow, in source order: validate files, save them,
classify, convert, rename, get upload URLs, upload, build `clinical_data`
(the final assignment at lines 297-300 puts every storage key into the
single group `"1"`, overwriting the earlier per-document loop), merge
notes, call extract, poll, write the summary, acknowledge. The
`except Exception` handler turns any raised message into `errResp`. -/
def process_case (files : List UploadedFile) (case_id : String)
    (user_id : String) (additional_data : Option String) (env : Env) : RunResult :=
  if files.isEmpty then
    -- `raise HTTPException(400, "No files uploaded")`; str() of a Starlette
    -- HTTPException is "<code>: <detail>"
    { response := errResp "400: No files uploaded", httpCalls := 0,
      submittedPayload := none, summaryWrites := [], failWrites := [] }
  else
    let saved := files.filter (fun f => f.filename != "")
    if saved.isEmpty then
      { response := errResp "No valid files were saved", httpCalls := 0,
        submittedPayload := none, summaryWrites := [], failWrites := [] }
    else
      let raw := rawFilesOf saved
      let document_files := (separate_files raw).1
      let text_files := (separate_files raw).2
      if document_files.isEmpty then
        { response := errResp "No document files found (PDF or image files required)",
          httpCalls := 0, submittedPayload := none, summaryWrites := [], failWrites := [] }
      else
        let image_names := convertedImages env document_files
        if image_names.isEmpty then
          { response := errResp "No JPEG images were generated from documents",
            httpCalls := 0, submittedPayload := none, summaryWrites := [], failWrites := [] }
        else
          let renamed := renamedNames image_names.length
          match env.uploadUrlsReply with
          | .error m =>
            { response := errResp ("Failed to get upload URLs: " ++ m),
              httpCalls := 1, submittedPayload := none,
              summaryWrites := [], failWrites := [] }
          | .ok items =>
            let upload_urls := (parseUploadItems items).1
            let s3_keys := (parseUploadItems items).2
            let putCalls :=
              (renamed.filter (fun f => (pyDictGet upload_urls f).isSome)).length
            match upload_all_images renamed upload_urls s3_keys env.putOk with
            | .error m =>
              { response := errResp m, httpCalls := 1 + putCalls,
                submittedPayload := none, summaryWrites := [], failWrites := [] }
            | .ok mapping =>
              let sorted_filenames := sortStrings (mapping.map (fun kv => kv.1))
              let clinical_data :=
                [("1", sorted_filenames.map (fun f => (pyDictGet mapping f).join))]
              let fad :=
                final_additional_data additional_data (text_files.map (fun f => f.content))
              let payload := extract_payload clinical_data fad
              match env.extractReply with
              | .error m =>
                { response := errResp ("Failed to call extract API: " ++ m),
                  httpCalls := 2 + putCalls, submittedPayload := some payload,
                  summaryWrites := [], failWrites := [] }
              | .ok jobId =>
                if pyTruthy jobId then
                  let pr := poll_job_status env.statusReplies
                  match pr.1 with
                  | .timeoutErr _ =>
                    -- routes.py line 374 invokes the missing
                    -- SupabaseService.update_case_failed: AttributeError,
                    -- caught by the outer handler. The literal timeout
                    -- response at lines 376-379 is unreachable, and no
                    -- failure write happens.
                    { response := errResp updateCaseFailedAttrMsg,
                      httpCalls := 2 + putCalls + pr.2,
                      submittedPayload := some payload,
                      summaryWrites := [], failWrites := [] }
                  | .errorExc m =>
                    { response := errResp m,
                      httpCalls := 2 + putCalls + pr.2,
                      submittedPayload := some payload,
                      summaryWrites := [], failWrites := [] }
                  | .completed final_summary =>
                    { response := ackResp,
                      httpCalls := 2 + putCalls + pr.2,
                      submittedPayload := some payload,
                      summaryWrites := [(case_id, final_summary)],
                      failWrites := [] }
                else
                  { response := errResp "No job_id returned from extract API",
                    httpCalls := 2 + putCalls, submittedPayload := some payload,
                    summaryWrites := [], failWrites := [] }

/-! ## Concrete scenarios used by the claims -/

/-- Replies that stay `processing` for the first `k` requests and then
report `completed` with the given summary text. -/
def scriptedReplies (k : Nat) (text : String) : Nat → ServerReply :=
  fun i => if i < k then procReply
           else .reply { status := "completed", finalSummary := some text, error := none }

/-- Replies that stay `processing` for the first `n` requests and then
answer with the given terminal reply. -/
def scriptedThen (n : Nat) (t : ServerReply) : Nat → ServerReply :=
  fun i => if i < n then procReply else t

/-- An environment where every stage succeeds trivially (used where the
environment is irrelevant). -/
def trivialEnv : Env :=
  { convert := fun _ => []
    uploadUrlsReply := .ok []
    putOk := fun _ => true
    extractReply := .ok (some "job-1")
    statusReplies := fun _ => .reply { status := "completed", finalSummary := some "S", error := none }
    summaryWriteOk := true }

/-- End-to-end scenario of §8 of the spec: one 2-page document and one
1-page document. -/
def c1Files : List UploadedFile :=
  [{ filename := "doc1.pdf", content := "A" }, { filename := "doc2.pdf", content := "B" }]

/-- Environment for `c1Files`: the converter produces two pages for
`doc1.pdf` and one for `doc2.pdf`; the upload service acknowledges all
three renamed images with storage keys `k1`, `k2`, `k3`; every PUT, the
extract call and the poll succeed. -/
def c1Env (k1 k2 k3 : String) : Env :=
  { convert := fun name =>
      if name = "doc1.pdf" then ["doc1_page_1.jpeg", "doc1_page_2.jpeg"]
      else if name = "doc2.pdf" then ["doc2.jpeg"]
      else []
    uploadUrlsReply := .ok
      [{ original_name := some "i1.jpeg", upload_url := some "u1", s3_key := some k1 },
       { original_name := some "i2.jpeg", upload_url := some "u2", s3_key := some k2 },
       { original_name := some "i3.jpeg", upload_url := some "u3", s3_key := some k3 }]
    putOk := fun _ => true
    extractReply := .ok (some "job-1")
    statusReplies := fun _ => .reply { status := "completed", finalSummary := some "SUM", error := none }
    summaryWriteOk := true }

/-- One single-page document (used for the timeout scenario). -/
def c2Files : List UploadedFile := [{ filename := "doc.pdf", content := "D" }]

/-- Environment whose extraction job never leaves `processing`: the poll
budget is exhausted and `poll_job_status` raises `TimeoutError`. -/
def c2Env : Env :=
  { convert := fun _ => ["doc_page_1.jpeg"]
    uploadUrlsReply := .ok
      [{ original_name := some "i1.jpeg", upload_url := some "u1", s3_key := some "K1" }]
    putOk := fun _ => true
    extractReply := .ok (some "job-1")
    statusReplies := fun _ => procReply
    summaryWriteOk := true }

/-- The converter output for a single 10-page document:
`d_page_1.jpeg` ... `d_page_10.jpeg` in production (page) order. -/
def c3PageFiles : List String :=
  (List.range 10).map (fun p => "d_page_" ++ toString (p + 1) ++ ".jpeg")

/-- The 10-page document batch. -/
def c3Files : List UploadedFile := [{ filename := "d.pdf", content := "D" }]

/-- Environment for the 10-page scenario: the upload service assigns the
storage key `K<j>` to the renamed image `i<j>.jpeg`; everything succeeds. -/
def c3Env : Env :=
  { convert := fun _ => c3PageFiles
    uploadUrlsReply := .ok
      ((List.range 10).map (fun j =>
        { original_name := some ("i" ++ toString (j + 1) ++ ".jpeg")
          upload_url := some ("u" ++ toString (j + 1))
          s3_key := some ("K" ++ toString (j + 1)) }))
    putOk := fun _ => true
    extractReply := .ok (some "job-1")
    statusReplies := fun _ => .reply { status := "completed", finalSummary := some "SUM", error := none }
    summaryWriteOk := true }

/-- The storage keys of the 10-page scenario listed in page-production
order: page `p`'s image file is `d_page_<p>.jpeg`; the rename loop maps the
lexically sorted glob to `i1.jpeg`, ..., so page `p` becomes
`i<j+1>.jpeg` where `j` is its position in the sorted list, and the upload
service assigns it the key `K<j+1>`. -/
def c3PageOrderKeys : List (Option String) :=
  c3PageFiles.map (fun orig =>
    some ("K" ++ toString ((sortStrings c3PageFiles).findIdx (fun s => s = orig) + 1)))

/-- One document plus one note file whose content is empty. -/
def c9Files : List UploadedFile :=
  [{ filename := "doc.pdf", content := "D" }, { filename := "note.txt", content := "" }]

/-- All-success environment for `c9Files`. -/
def c9Env : Env :=
  { convert := fun _ => ["doc_page_1.jpeg"]
    uploadUrlsReply := .ok
      [{ original_name := some "i1.jpeg", upload_url := some "u1", s3_key := some "K1" }]
    putOk := fun _ => true
    extractReply := .ok (some "job-1")
    statusReplies := fun _ => .reply { status := "completed", finalSummary := some "SUM", error := none }
    summaryWriteOk := true }

/-- Modelled from the spec (§4.5): "the combined notes text (form-provided
notes concatenated with the verbatim contents of any note-classified files,
separated by a blank line, form-provided text first)" — with a falsy
(absent or empty) form text contributing nothing. Used to compare the
code's `additional_data` handling against the spec's words. -/
def specCombinedNotes (form : Option String) (contents : List String) : String :=
  joinBlank ((if pyTruthy form then [form.getD ""] else []) ++ contents)

theorem poll_go_count_le (replies : Nat → ServerReply) :
    ∀ (fuel attempt : Nat), (poll_go replies attempt fuel).2 ≤ fuel := by
  intro fuel
  induction fuel with
  | zero => intro attempt; simp [poll_go]
  | succ f ih =>
    intro attempt
    simp only [poll_go]
    cases replies attempt with
    | transport m => simp
    | reply b =>
      by_cases hc : b.status = "completed" <;>
        by_cases hf : b.status = "failed" <;>
          simp [hc, hf]
      · cases pyTruthy b.finalSummary <;> simp
      · cases pyTruthy b.finalSummary <;> simp
      · exact ih (attempt + 1)

/-- One iteration on a `processing` reply: one request is issued, the
counter advances, the loop continues. -/
theorem poll_go_processing_step (replies : Nat → ServerReply) (attempt f : Nat)
    (h : replies attempt = procReply) :
    poll_go replies attempt (f + 1) =
      ((poll_go replies (attempt + 1) f).1,
       (poll_go replies (attempt + 1) f).2 + 1) := by
  simp only [poll_go, h, procReply]
  rw [if_neg (by decide), if_neg (by decide)]

/-- Skipping a block of `processing` replies: if the `n` replies starting at
`attempt` are all `processing` and `n ≤ fuel`, the loop runs `n` more
iterations and continues from there. -/
theorem poll_go_skip (replies : Nat → ServerReply) :
    ∀ (n attempt fuel : Nat), n ≤ fuel →
      (∀ i, i < n → replies (attempt + i) = procReply) →
      poll_go replies attempt fuel =
        ((poll_go replies (attempt + n) (fuel - n)).1,
         (poll_go replies (attempt + n) (fuel - n)).2 + n) := by
  intro n
  induction n with
  | zero => intro attempt fuel _ _; simp
  | succ m ih =>
    intro attempt fuel hle hp
    obtain ⟨f, rfl⟩ : ∃ f, fuel = f + 1 := ⟨fuel - 1, by omega⟩
    rw [poll_go_processing_step replies attempt f
        (by simpa using hp 0 (Nat.succ_pos m))]
    rw [ih (attempt + 1) f (by omega)
        (fun i hi => by
          have := hp (i + 1) (by omega)
          simpa [Nat.add_assoc, Nat.add_comm 1 i] using this)]
    have h1 : attempt + 1 + m = attempt + (m + 1) := by omega
    have h2 : f - m = f + 1 - (m + 1) := by omega
    rw [h1, h2]
    simp [Nat.add_assoc]




/-! ## Helper lemmas -/

theorem str_append_ne_empty_left (s t : String) (hs : s ≠ "") : s ++ t ≠ "" := by
  obtain ⟨sd⟩ := s
  obtain ⟨td⟩ := t
  intro h
  apply hs
  have hd : sd ++ td = ([] : List Char) := congrArg String.data h
  have hnil : sd = [] := (List.append_eq_nil.mp hd).1
  rw [hnil]

theorem pyDictInsert_notMem {α : Type} (m : List (String × α)) (k : String) (v : α)
    (h : k ∉ m.map Prod.fst) : pyDictInsert m k v = m ++ [(k, v)] := by
  unfold pyDictInsert
  rw [if_neg]
  intro hc
  simp only [List.any_eq_true, decide_eq_true_eq] at hc
  obtain ⟨kv, hkv, he⟩ := hc
  exact h (List.mem_map.mpr ⟨kv, hkv, he⟩)

theorem upload_go_failed (urls : List (String × String))
    (keys : List (String × Option String)) (putOk : String → Bool) :
    ∀ (l : List String) (m : List (String × Option String)) (failed : List String),
      (upload_go urls keys putOk l m failed).2 =
        failed ++ l.filter (fun n => (pyDictGet urls n).isNone || !putOk n) := by
  intro l
  induction l with
  | nil => intro m failed; simp [upload_go]
  | cons name rest ih =>
    intro m failed
    cases hg : pyDictGet urls name with
    | none => simp [upload_go, hg, ih, List.filter_cons]
    | some u =>
      cases hp : putOk name with
      | true => simp [upload_go, hg, hp, ih, List.filter_cons]
      | false => simp [upload_go, hg, hp, ih, List.filter_cons]

theorem upload_go_success (urls : List (String × String))
    (keys : List (String × Option String)) (putOk : String → Bool) :
    ∀ (l : List String) (m : List (String × Option String)) (failed : List String),
      (∀ n, n ∈ l → (pyDictGet urls n).isSome ∧ putOk n = true) →
      (∀ n, n ∈ l → n ∉ m.map Prod.fst) →
      l.Nodup →
      upload_go urls keys putOk l m failed =
        (m ++ l.map (fun n => (n, pyDictGetD keys n)), failed) := by
  intro l
  induction l with
  | nil => intro m failed _ _ _; simp [upload_go]
  | cons name rest ih =>
    intro m failed hok hmem hnd
    have hhead := hok name (List.mem_cons_self name rest)
    obtain ⟨u, hu⟩ := Option.isSome_iff_exists.mp hhead.1
    have hred : upload_go urls keys putOk (name :: rest) m failed =
        upload_go urls keys putOk rest (pyDictInsert m name (pyDictGetD keys name)) failed := by
      simp [upload_go, hu, hhead.2]
    rw [hred]
    rw [pyDictInsert_notMem m name (pyDictGetD keys name)
        (hmem name (List.mem_cons_self name rest))]
    rw [ih (m ++ [(name, pyDictGetD keys name)]) failed
        (fun n hn => hok n (List.mem_cons_of_mem name hn))
        (fun n hn => by
          simp only [List.map_append, List.mem_append]
          rintro (hin | hin)
          · exact hmem n (List.mem_cons_of_mem name hn) hin
          · simp only [List.map_cons, List.map_nil, List.mem_singleton] at hin
            exact (List.nodup_cons.mp hnd).1 (hin ▸ hn))
        (List.nodup_cons.mp hnd).2]
    simp

theorem upload_bad_iff (urls : List (String × String)) (putOk : String → Bool)
    (n : String) :
    ((pyDictGet urls n).isNone || !putOk n) = true ↔
      (pyDictGet urls n = none ∨ ((pyDictGet urls n).isSome ∧ putOk n = false)) := by
  cases h : pyDictGet urls n <;> cases hp : putOk n <;> simp [h, hp]

theorem joinBlank_cons (a : String) (l : List String) (hl : l ≠ []) :
    joinBlank (a :: l) = a ++ "\x0a\x0a" ++ joinBlank l := by
  cases l with
  | nil => exact absurd rfl hl
  | cons b bs => rfl

theorem separate_files_eq_filter (raw : List UploadedFile) :
    (separate_files raw).1 =
      raw.filter (fun f => !(decide (strToLower (pathSuffix f.filename) ∈ txt_extensions))) ∧
    (separate_files raw).2 =
      raw.filter (fun f => decide (strToLower (pathSuffix f.filename) ∈ txt_extensions)) := by
  induction raw with
  | nil => simp [separate_files]
  | cons f rest ih =>
    simp only [separate_files, List.filter_cons]
    by_cases ht : strToLower (pathSuffix f.filename) ∈ txt_extensions
    · simp [ht, ih.1, ih.2]
    · by_cases hd : strToLower (pathSuffix f.filename) ∈ document_extensions <;>
        simp [ht, hd, ih.1, ih.2]

/-! ## Claim theorems -/

/-- C5: For every sequence of server responses, `poll_job_status` issues at
most `MAX_POLL_ATTEMPTS = 120` status requests; against a server that
always answers `processing`, it issues exactly 120 status requests and then
reports the timed-out outcome (`TimeoutError`, a kind distinct from the
other failures). -/
theorem poll_budget_and_timeout (replies : Nat → ServerReply) :
    (poll_job_status replies).2 ≤ MAX_POLL_ATTEMPTS ∧
    ((∀ i, i < MAX_POLL_ATTEMPTS → replies i = procReply) →
      poll_job_status replies =
        (.timeoutErr "Job polling timed out after 120 attempts", MAX_POLL_ATTEMPTS)) := by
  constructor
  · exact poll_go_count_le replies MAX_POLL_ATTEMPTS 0
  · intro hp
    unfold poll_job_status
    rw [poll_go_skip replies MAX_POLL_ATTEMPTS 0 MAX_POLL_ATTEMPTS le_rfl
        (fun i hi => by simpa using hp i hi)]
    rfl

/-- Witness for C5: the constant-`processing` server. -/
theorem poll_budget_and_timeout_witness :
    poll_job_status (fun _ => procReply) =
      (.timeoutErr "Job polling timed out after 120 attempts", MAX_POLL_ATTEMPTS) :=
  (poll_budget_and_timeout (fun _ => procReply)).2 (fun _ _ => rfl)

/-- C6: against a server that answers `processing` for the first `k`
status requests (`k` below the budget) and then `completed` with a
(non-empty) result text, `poll_job_status` returns that text and issues
exactly `k + 1` status requests. -/
theorem poll_completes_after_k (k : Nat) (text : String)
    (hk : k < MAX_POLL_ATTEMPTS) (ht : text ≠ "") :
    poll_job_status (scriptedReplies k text) = (.completed text, k + 1) := by
  unfold poll_job_status
  rw [poll_go_skip (scriptedReplies k text) k 0 MAX_POLL_ATTEMPTS (Nat.le_of_lt hk)
      (fun i hi => by
        have h : 0 + i < k := by omega
        simp only [scriptedReplies, if_pos h])]
  obtain ⟨f, hf⟩ : ∃ f, MAX_POLL_ATTEMPTS - k = f + 1 :=
    ⟨MAX_POLL_ATTEMPTS - k - 1, by omega⟩
  rw [hf]
  have hk' : scriptedReplies k text k =
      .reply { status := "completed", finalSummary := some text, error := none } := by
    simp [scriptedReplies]
  simp [poll_go, hk', pyTruthy, ht, Nat.add_comm]

/-- Witness for C6 at `k = 3`. -/
theorem poll_completes_after_k_witness :
    poll_job_status (scriptedReplies 3 "SUMMARY") = (.completed "SUMMARY", 4) :=
  poll_completes_after_k 3 "SUMMARY" (by decide) (by decide)

/-- C7: after `n` `processing` answers (within budget), `poll_job_status`
stops at once — issuing exactly `n + 1` status requests, leaving the rest
of the budget unused — when the next answer is `failed` (error carrying the
service-reported reason), a transport error (fatal immediately, not
retried), or `completed` without a result text (missing-result error, not
retried). -/
theorem poll_terminal_stops_immediately (n : Nat) (reason tmsg : String)
    (hn : n < MAX_POLL_ATTEMPTS) :
    (poll_job_status
        (scriptedThen n (.reply { status := "failed", finalSummary := none, error := some reason })) =
      (.errorExc ("Job failed: " ++ reason), n + 1)) ∧
    (poll_job_status (scriptedThen n (.transport tmsg)) =
      (.errorExc ("Failed to poll job status: " ++ tmsg), n + 1)) ∧
    (poll_job_status
        (scriptedThen n (.reply { status := "completed", finalSummary := none, error := none })) =
      (.errorExc "No final_summary in completed result", n + 1)) := by
  obtain ⟨f, hf⟩ : ∃ f, MAX_POLL_ATTEMPTS - n = f + 1 :=
    ⟨MAX_POLL_ATTEMPTS - n - 1, by omega⟩
  refine ⟨?_, ?_, ?_⟩ <;>
    · unfold poll_job_status
      rw [poll_go_skip _ n 0 MAX_POLL_ATTEMPTS (Nat.le_of_lt hn)
          (fun i hi => by
            have h : 0 + i < n := by omega
            simp only [scriptedThen, if_pos h])]
      rw [hf]
      have hn' : ¬(n < n) := by omega
      simp [poll_go, scriptedThen, hn', pyTruthy, Nat.add_comm]

/-- Witness for C7 at `n = 0` (`failed` on attempt 1, and the other two
terminal answers likewise on attempt 1). -/
theorem poll_terminal_stops_immediately_witness :
    (poll_job_status
        (scriptedThen 0 (.reply { status := "failed", finalSummary := none, error := some "bad scan" })) =
      (.errorExc ("Job failed: " ++ "bad scan"), 1)) ∧
    (poll_job_status (scriptedThen 0 (.transport "connection reset")) =
      (.errorExc ("Failed to poll job status: " ++ "connection reset"), 1)) ∧
    (poll_job_status
        (scriptedThen 0 (.reply { status := "completed", finalSummary := none, error := none })) =
      (.errorExc "No final_summary in completed result", 1)) :=
  poll_terminal_stops_immediately 0 "bad scan" "connection reset" (by decide)

/-- C4: `upload_all_images` attempts every image before deciding (the
failure condition ranges over the whole batch, not a stopped prefix); it
raises exactly when some image's filename has no upload target or some PUT
fails, and then no mapping is returned at all; when every image has a
target and every PUT succeeds it returns one entry per image, in order:
`filename -> s3_keys.get(filename, "")`. -/
theorem upload_all_images_spec (names : List String) (urls : List (String × String))
    (keys : List (String × Option String)) (putOk : String → Bool)
    (hnd : names.Nodup) :
    ((∃ e, upload_all_images names urls keys putOk = .error e) ↔
      (∃ name ∈ names, pyDictGet urls name = none ∨
        ((pyDictGet urls name).isSome ∧ putOk name = false))) ∧
    ((∀ name ∈ names, (pyDictGet urls name).isSome ∧ putOk name = true) →
      upload_all_images names urls keys putOk =
        .ok (names.map (fun name => (name, pyDictGetD keys name)))) := by
  constructor
  · simp only [upload_all_images]
    rw [upload_go_failed urls keys putOk names [] []]
    simp only [List.nil_append]
    constructor
    · rintro ⟨e, he⟩
      by_cases hfil :
          names.filter (fun n => (pyDictGet urls n).isNone || !putOk n) = []
      · rw [hfil] at he
        simp at he
      · have h2 : ¬ ∀ a ∈ names, ¬ ((pyDictGet urls a).isNone || !putOk a) = true :=
          fun hall => hfil (List.filter_eq_nil.mpr hall)
        push_neg at h2
        obtain ⟨name, hmem, hp⟩ := h2
        exact ⟨name, hmem, (upload_bad_iff urls putOk name).mp (by simpa using hp)⟩
    · rintro ⟨name, hmem, hbad⟩
      have hp := (upload_bad_iff urls putOk name).mpr hbad
      have hfil :
          names.filter (fun n => (pyDictGet urls n).isNone || !putOk n) ≠ [] := by
        intro h0
        exact (List.filter_eq_nil.mp h0 name hmem) hp
      have hie :
          (names.filter (fun n => (pyDictGet urls n).isNone || !putOk n)).isEmpty = false := by
        simpa [List.isEmpty_iff] using hfil
      rw [hie]
      exact ⟨_, rfl⟩
  · intro hok
    simp only [upload_all_images]
    rw [upload_go_success urls keys putOk names [] [] hok (by simp) hnd]
    simp

/-- Witness for C4: two images, both with targets, all PUTs succeed; the
second filename is missing from the key dict, so it maps to the default
`""`. -/
theorem upload_all_images_spec_witness :
    upload_all_images ["i1.jpeg", "i2.jpeg"]
        [("i1.jpeg", "u1"), ("i2.jpeg", "u2")] [("i1.jpeg", some "K1")]
        (fun _ => true) =
      .ok [("i1.jpeg", some "K1"), ("i2.jpeg", some "")] := by
  have h := upload_all_images_spec ["i1.jpeg", "i2.jpeg"]
      [("i1.jpeg", "u1"), ("i2.jpeg", "u2")] [("i1.jpeg", some "K1")]
      (fun _ => true) (by decide)
  exact h.2 (by decide)

/-- C8: the classifier partitions every batch — the `.txt` extension
(case-insensitive) goes to notes, everything else (the document/image
allow-list and every unrecognized extension alike) goes to documents, each
file to exactly one side; and whenever the saved batch classifies to zero
documents, `process_case` answers with an error response having made no
HTTP calls. -/
theorem classifier_partition_and_validation (raw files : List UploadedFile)
    (cid uid : String) (ad : Option String) (env : Env) :
    ((separate_files raw).1 =
        raw.filter (fun f => !(decide (strToLower (pathSuffix f.filename) ∈ txt_extensions))) ∧
     (separate_files raw).2 =
        raw.filter (fun f => decide (strToLower (pathSuffix f.filename) ∈ txt_extensions))) ∧
    ((separate_files (rawFilesOf (files.filter (fun f => f.filename != "")))).1 = [] →
      (process_case files cid uid ad env).response.status = "error" ∧
      (process_case files cid uid ad env).httpCalls = 0) := by
  refine ⟨separate_files_eq_filter raw, ?_⟩
  intro h
  simp only [process_case]
  split
  · exact ⟨rfl, rfl⟩
  · split
    · exact ⟨rfl, rfl⟩
    · split
      · exact ⟨rfl, rfl⟩
      · rename_i hdocs
        exact absurd (by simpa [List.isEmpty_iff] using h) hdocs

/-- Witness for C8: a batch holding only a note file. -/
theorem classifier_partition_and_validation_witness :
    (process_case [{ filename := "note.txt", content := "hi" }] "c" "u" none
        trivialEnv).response.status = "error" ∧
    (process_case [{ filename := "note.txt", content := "hi" }] "c" "u" none
        trivialEnv).httpCalls = 0 :=
  (classifier_partition_and_validation []
      [{ filename := "note.txt", content := "hi" }] "c" "u" none trivialEnv).2
    (by decide)

/-- C10: every run of `process_case` answers either with the success
acknowledgment (`status = "processing_started"`, `summary_markdown` null,
no extracted text) or with the uniform error object
(`status = "error"` plus a message); no exception escapes the handler. -/
theorem process_case_response_shape (files : List UploadedFile) (cid uid : String)
    (ad : Option String) (env : Env) :
    (process_case files cid uid ad env).response = ackResp ∨
    ∃ m, (process_case files cid uid ad env).response = errResp m := by
  simp only [process_case]
  repeat' split
  all_goals first
    | exact Or.inl rfl
    | exact Or.inr ⟨_, rfl⟩

/-- C1 counterexample: in the spec's end-to-end scenario (a 2-page document
`doc1.pdf`, a 1-page document `doc2.pdf`, form notes `"history: none"`,
every stage succeeding with storage keys `K1 K2 K3`), the payload actually
submitted holds the single group `"1"` with all three keys — not the
claimed `{"1": [K1, K2], "2": [K3]}`. -/
theorem clinical_data_two_groups_counterexample :
    (process_case c1Files "case-1" "user-1" (some "history: none")
        (c1Env "K1" "K2" "K3")).submittedPayload =
      some { clinical_data := [("1", [some "K1", some "K2", some "K3"])],
             additional_data := some "history: none" } ∧
    ([("1", [some "K1", some "K2", some "K3"])] :
        List (String × List (Option String))) ≠
      [("1", [some "K1", some "K2"]), ("2", [some "K3"])] :=
  ⟨by decide, by decide⟩

/-- C1 amended: in that scenario the submitted clinical data is the single
group `"1"` holding all of the documents' storage keys in page order
(routes.py lines 297-300 discard the per-document grouping), whatever the
keys are. -/
theorem clinical_data_single_group (k1 k2 k3 : String) :
    (process_case c1Files "case-1" "user-1" (some "history: none")
        (c1Env k1 k2 k3)).submittedPayload =
      some { clinical_data := [("1", [some k1, some k2, some k3])],
             additional_data := some "history: none" } := rfl

/-- C2 (code bug): when the poll budget is exhausted (server always
`processing`), `process_case` reaches the `except TimeoutError` branch, and
routes.py line 374 calls `SupabaseService.update_case_failed` — a method
`supabase_service.py` never defines. The `AttributeError` is caught by the
outer handler, so the response message is the attribute error, not the
advertised timeout message, and no failure write reaches the Result Sink;
the 123 HTTP calls show the 120-attempt budget was indeed exhausted. -/
theorem timeout_path_attribute_error :
    (process_case c2Files "case-2" "user-2" none c2Env).response =
      errResp updateCaseFailedAttrMsg ∧
    (process_case c2Files "case-2" "user-2" none c2Env).failWrites = [] ∧
    (process_case c2Files "case-2" "user-2" none c2Env).httpCalls = 123 ∧
    updateCaseFailedAttrMsg ≠
      "Case creation failed - AI processing timed out after 120 attempts" :=
  ⟨by decide, by decide, by decide, by decide⟩

/-- C3 (code bug): with one 10-page document (`d_page_1.jpeg` ...
`d_page_10.jpeg`, renamed to `i1.jpeg` ... `i10.jpeg`, key `K<j>` assigned
to `i<j>.jpeg`), every key still lands in exactly one group, but the
submitted order comes from the lexical sort that places `i10.jpeg` before
`i2.jpeg` (and, at rename time, `d_page_10` before `d_page_2`), so it
differs from the keys listed in page-production order
(`c3PageOrderKeys`). -/
theorem ten_image_page_order_violated :
    (process_case c3Files "case-3" "user-3" none c3Env).submittedPayload =
      some { clinical_data :=
               [("1", [some "K1", some "K10", some "K2", some "K3", some "K4",
                       some "K5", some "K6", some "K7", some "K8", some "K9"])],
             additional_data := none } ∧
    c3PageOrderKeys =
      [some "K1", some "K3", some "K4", some "K5", some "K6",
       some "K7", some "K8", some "K9", some "K10", some "K2"] ∧
    [some "K1", some "K10", some "K2", some "K3", some "K4",
     some "K5", some "K6", some "K7", some "K8", some "K9"] ≠ c3PageOrderKeys :=
  ⟨by decide, by decide, by decide⟩

/-- C9 counterexample: with a document plus a note-classified file whose
content is empty (and no form notes), notes are present — the classifier
routes `note.txt` to the notes list — yet the submitted payload carries no
`additional_data` field, because the combined text is empty and Python
truthiness drops it. -/
theorem additional_data_presence_counterexample :
    (separate_files (rawFilesOf (c9Files.filter (fun f => f.filename != "")))).2 ≠ [] ∧
    (process_case c9Files "case-9" "user-9" none c9Env).submittedPayload =
      some { clinical_data := [("1", [some "K1"])], additional_data := none } :=
  ⟨by decide, by decide⟩

/-- C9 amended: the payload carries `additional_data` exactly when the
combined notes text — form-provided text first (dropped when absent or
empty), then the note files' verbatim contents, joined by blank lines — is
non-empty, and then its value is exactly that combined text; with only
non-empty form notes it is exactly the form text. -/
theorem additional_data_iff_combined_nonempty
    (cd : List (String × List (Option String)))
    (form : Option String) (contents : List String) :
    (extract_payload cd (final_additional_data form contents)).additional_data =
      (if specCombinedNotes form contents = "" then none
       else some (specCombinedNotes form contents)) := by
  cases form with
  | none =>
    cases contents with
    | nil => simp [extract_payload, final_additional_data, specCombinedNotes, pyTruthy, joinBlank]
    | cons c cs =>
      simp only [extract_payload, final_additional_data, specCombinedNotes, pyTruthy,
        List.isEmpty_cons, List.nil_append]
      by_cases hj : joinBlank (c :: cs) = "" <;> simp [hj]
  | some s =>
    by_cases hs : s = ""
    · subst hs
      cases contents with
      | nil => simp [extract_payload, final_additional_data, specCombinedNotes, pyTruthy, joinBlank]
      | cons c cs =>
        simp only [extract_payload, final_additional_data, specCombinedNotes, pyTruthy,
          List.isEmpty_cons, List.nil_append]
        by_cases hj : joinBlank (c :: cs) = "" <;> simp [hj]
    · cases contents with
      | nil =>
        simp [extract_payload, final_additional_data, specCombinedNotes, pyTruthy, joinBlank, hs]
      | cons c cs =>
        have hcomb : joinBlank (s :: c :: cs) = s ++ "\x0a\x0a" ++ joinBlank (c :: cs) := rfl
        have hne : s ++ "\x0a\x0a" ++ joinBlank (c :: cs) ≠ "" := by
          intro h0
          exact str_append_ne_empty_left (s ++ "\x0a\x0a") (joinBlank (c :: cs))
            (str_append_ne_empty_left s "\x0a\x0a" hs) h0
        simp [extract_payload, final_additional_data, specCombinedNotes, pyTruthy,
          hs, hcomb, hne]
